import Mathlib

/-!
Verification development for the Full-Stack Multi-User Todo backend
(src/backend/src). The Python source is shallowly embedded: pure helpers
become Lean functions, the database becomes an explicit list of task rows,
HTTP failure paths become an Except over an HTTPError record, and wall-clock
time is passed explicitly as an integer count of unix seconds.
-/

namespace TodoApp

/-- An HTTP error outcome (FastAPI HTTPException or validation rejection),
reduced to its status code and detail string. -/
structure HTTPError where
  status_code : Nat
  detail : String
deriving DecidableEq, Repr

/-- Decidable equality of request outcomes, so that concrete runs of the
embedded routes can be checked by evaluation. -/
instance {ε α : Type} [DecidableEq ε] [DecidableEq α] : DecidableEq (Except ε α) :=
  fun x y =>
    match x, y with
    | Except.error a, Except.error b =>
      if h : a = b then isTrue (h ▸ rfl)
      else isFalse (fun he => h (Except.error.inj he))
    | Except.error _, Except.ok _ => isFalse (fun he => Except.noConfusion he)
    | Except.ok _, Except.error _ => isFalse (fun he => Except.noConfusion he)
    | Except.ok a, Except.ok b =>
      if h : a = b then isTrue (h ▸ rfl)
      else isFalse (fun he => h (Except.ok.inj he))

/-! ### String helpers

The Python string methods the routes use (strip, lower, containment) are
embedded structurally over the character list of the string, so that every
concrete run reduces by evaluation. Lowercasing is ASCII, which covers the
closed vocabularies (status, priority, sort, order) these helpers are
applied to. -/

/-- ASCII whitespace, for the str.strip blank test. -/
def isSpaceChar (c : Char) : Bool :=
  c == ' ' || c == '\t' || c == '\n' || c == '\r'

/-- Python str.strip: leading and trailing whitespace removed. -/
def trimStr (s : String) : String :=
  ⟨((s.data.dropWhile isSpaceChar).reverse.dropWhile isSpaceChar).reverse⟩

/-- Python str.lower (ASCII range). -/
def lowerStr (s : String) : String :=
  ⟨s.data.map Char.toLower⟩

/-- Whether the second character list is an initial segment of the first. -/
def startsWithChars : List Char → List Char → Bool
  | _, [] => true
  | [], _ :: _ => false
  | c :: cs, p :: ps => c == p && startsWithChars cs ps

/-- Whether pat occurs as a contiguous run inside the character list. -/
def containsChars (pat : List Char) : List Char → Bool
  | [] => pat.isEmpty
  | c :: rest => startsWithChars (c :: rest) pat || containsChars pat rest

/-! ## Password hasher (src/backend/src/auth.py)

Passwords are modelled as their UTF-8 byte sequences (List Nat), since the
source measures and truncates passwords at the byte level. The external
passlib bcrypt backend is modelled as an ideal committing digest: hashing
records the (at most 72-byte) input together with its salt, and verification
recomputes and compares. The repository code under test is the
pre-truncation logic wrapped around that backend. -/

/-- A bcrypt digest, modelled abstractly: it commits to the salt and to the
password bytes it was computed from (ideal collision-free hash). -/
structure BcryptDigest where
  salt : Nat
  pw : List Nat
deriving DecidableEq, Repr

/-- The external pwd_context.hash call (bcrypt, 12 rounds), modelled as an
ideal committing hash of the given bytes with the given salt. -/
def bcryptHash (salt : Nat) (pw : List Nat) : BcryptDigest :=
  { salt := salt, pw := pw }

/-- The external pwd_context.verify call: true exactly when the candidate
bytes match the bytes the digest commits to. -/
def bcryptVerify (pw : List Nat) (d : BcryptDigest) : Bool :=
  pw == d.pw

/-- Embeds get_password_hash (auth.py lines 54-78). If the password exceeds
72 bytes it is silently truncated to its first 72 bytes before hashing
(the decode with errors ignore, which may additionally drop a trailing
partial multi-byte character, is applied identically on the verify path and
is immaterial to the properties proved here, so truncation is modelled as
take 72). The function is total: the except branch of the source is
unreachable because the input passed to the backend is always within the
72-byte limit. The salt drawn by bcrypt is passed explicitly. -/
def get_password_hash (salt : Nat) (password : List Nat) : BcryptDigest :=
  let password := if password.length > 72 then password.take 72 else password
  bcryptHash salt password

/-- Embeds verify_password (auth.py lines 32-51): the same silent 72-byte
truncation, then backend verification; total for the same reason. -/
def verify_password (plain_password : List Nat) (hashed_password : BcryptDigest) : Bool :=
  let plain_password :=
    if plain_password.length > 72 then plain_password.take 72 else plain_password
  bcryptVerify plain_password hashed_password

/-! ## Token service (src/backend/src/auth.py)

JWTs are modelled structurally: a payload (subject claim and expiry in unix
seconds) plus a signature. The HS256 MAC is modelled as an ideal MAC whose
tag determines the key and the signed payload. python-jose validates expiry
with zero leeway: a token is expired exactly when exp is strictly below the
current time. -/

/-- The decoded JWT payload: the optional sub claim and the exp claim. -/
structure JWTPayload where
  sub : Option String
  exp : Int
deriving DecidableEq, Repr

/-- The ideal HS256 MAC: the tag is the pair of key and message. -/
def hmacSign (secret : String) (p : JWTPayload) : String × JWTPayload :=
  (secret, p)

/-- A signed token: payload plus signature tag. -/
structure JWT where
  payload : JWTPayload
  sig : String × JWTPayload
deriving DecidableEq, Repr

/-- The process-wide signing secret, SECRET_KEY = settings.better_auth_secret
(config.py default value). -/
def SECRET_KEY : String := "your-better-auth-secret-here"

/-- The external jwt.encode call: signs the payload with the secret. -/
def jwt_encode (p : JWTPayload) (secret : String) : JWT :=
  { payload := p, sig := hmacSign secret p }

/-- The external jwt.decode call at wall-clock time now: checks the
signature, then the exp claim (python-jose raises ExpiredSignatureError
exactly when exp is strictly less than now, with the default zero leeway);
any failure surfaces as none (the JWTError path of the caller). -/
def jwt_decode (tok : JWT) (secret : String) (now : Int) : Option JWTPayload :=
  if tok.sig = hmacSign secret tok.payload then
    if tok.payload.exp < now then none
    else some tok.payload
  else none

/-- Python truthiness of an optional timedelta: none and the zero timedelta
are both falsy; any nonzero timedelta is truthy. -/
def timedeltaTruthy : Option Int → Bool
  | none => false
  | some d => d != 0

/-- The data dict handed to create_access_token, reduced to the only key the
system ever writes, sub. -/
structure TokenData where
  user_id : String
deriving DecidableEq, Repr

/-- Embeds create_access_token (auth.py lines 81-93) at issuance time now
(unix seconds): the expiry is now plus the given delta when the delta is
truthy, else now plus the 15-minute fallback. Note the source guards the
delta with a plain truthiness test, so a zero timedelta falls through to
the 15-minute fallback. -/
def create_access_token (sub : Option String) (expires_delta : Option Int) (now : Int) : JWT :=
  let expire : Int :=
    if timedeltaTruthy expires_delta then now + expires_delta.getD 0
    else now + 15 * 60
  jwt_encode { sub := sub, exp := expire } SECRET_KEY

/-- Embeds verify_token (auth.py lines 96-108) at wall-clock time now:
decode with the process secret; a payload without a sub claim yields none;
any decode failure yields none. -/
def verify_token (token : JWT) (now : Int) : Option TokenData :=
  match jwt_decode token SECRET_KEY now with
  | none => none
  | some payload =>
    match payload.sub with
    | none => none
    | some user_id => some { user_id := user_id }

/-- The 401 raised by the auth guard. -/
def credentialsError : HTTPError :=
  { status_code := 401, detail := "Could not validate credentials" }

/-- Embeds get_current_user_id (auth.py lines 111-125): the bearer
credential is the already-extracted token; an invalid token becomes a 401. -/
def get_current_user_id (credentials : JWT) (now : Int) : Except HTTPError String :=
  match verify_token credentials now with
  | none => Except.error credentialsError
  | some token_data => Except.ok token_data.user_id

/-! ## Task data model

The SQLModel table module (models.py) is imported by the routes but is not
part of the provided sources; the record below is modelled from the spec. -/

/-- Modelled from the spec: the Task table of models.py is missing from the
sources; fields follow the data model of the spec (id unique per repository,
owning user_id, required title, optional description, completed boolean,
optional priority drawn from the closed set high/medium/low, tags persisted
as a serialized scalar string, optional due_date timestamp, server-assigned
created_at and updated_at). Timestamps are unix seconds. -/
structure Task where
  id : Nat
  user_id : String
  title : String
  description : Option String
  completed : Bool
  priority : Option String
  tags : Option String
  due_date : Option Int
  created_at : Int
  updated_at : Int
deriving DecidableEq, Repr

/-- Modelled from the spec: the stored-priority invariant of the data model,
priority is absent or one of the closed set high/medium/low (stored in
lower case). -/
def priorityOk (t : Task) : Bool :=
  match t.priority with
  | none => true
  | some p => p == "high" || p == "medium" || p == "low"

/-! ## Task query pipeline (src/backend/src/routes/tasks.py, get_tasks)

The database is a list of task rows in the storage order of the underlying
store; a SQL query without an ORDER BY returns rows in that order. Each
optional WHERE clause of the source becomes one function on the row list;
absent clauses are the identity, matching a query to which no where call
was added. -/

/-- Substring containment as produced by a SQL LIKE with wildcards on both
sides (and by the SQLAlchemy contains operator): SQLite LIKE is
case-insensitive on ASCII letters, modelled by lowercasing both sides. -/
def likeContains (s pat : String) : Bool :=
  containsChars (lowerStr pat).data (lowerStr s).data

/-- A single-quote character, for the SQL escaping step of the tag filter. -/
def singleQuote : String := String.singleton (Char.ofNat 39)

/-- Embeds the status filter (tasks.py lines 39-45): non-blank, completed
selects completed rows, pending selects pending rows, anything else (such
as all) applies no filter; matching is on the lowercased input. -/
def statusFilter : Option String → List Task → List Task
  | none, l => l
  | some s, l =>
    if trimStr s == "" then l
    else if lowerStr s == "completed" then l.filter (fun t => t.completed)
    else if lowerStr s == "pending" then l.filter (fun t => !t.completed)
    else l

/-- Embeds the priority filter (tasks.py lines 47-48): non-blank input is
lowercased and compared for equality against the stored priority column
(SQL equality on a text column is case-sensitive; a NULL priority never
matches). -/
def priorityFilter : Option String → List Task → List Task
  | none, l => l
  | some p, l =>
    if trimStr p == "" then l
    else l.filter (fun t => t.priority == some (lowerStr p))

/-- Embeds the tag filter (tasks.py lines 51-56): non-blank input has
single quotes doubled and is then matched as a LIKE substring of the
serialized tags column, which must also be non-NULL. -/
def tagFilter : Option String → List Task → List Task
  | none, l => l
  | some tag, l =>
    if trimStr tag == "" then l
    else
      let escaped_tag := tag.replace singleQuote (singleQuote ++ singleQuote)
      l.filter (fun t =>
        match t.tags with
        | some s => likeContains s escaped_tag
        | none => false)

/-- Embeds the text search filter (tasks.py lines 58-66): LIKE containment
in the title or in the description; a NULL description never matches. -/
def searchFilter : Option String → List Task → List Task
  | none, l => l
  | some s, l =>
    if trimStr s == "" then l
    else l.filter (fun t =>
      likeContains t.title s ||
      (match t.description with
       | some d => likeContains d s
       | none => false))

/-- Digit-string parser used by the ISO timestamp parser below. -/
def parseDigits (s : String) : Option Nat :=
  if s.length > 0 && s.data.all (fun c => c.isDigit) then
    some (s.data.foldl (fun a c => a * 10 + (c.toNat - 48)) 0)
  else none

/-- Days from civil date (proleptic Gregorian, days since 1970-01-01),
the standard era-based conversion. -/
def daysFromCivil (y : Int) (m d : Nat) : Int :=
  let y2 : Int := if m ≤ 2 then y - 1 else y
  let era : Int := (if 0 ≤ y2 then y2 else y2 - 399) / 400
  let yoe : Int := y2 - era * 400
  let mp : Int := (Int.ofNat m + 9) % 12
  let doy : Int := (153 * mp + 2) / 5 + Int.ofNat d - 1
  let doe : Int := yoe * 365 + yoe / 4 - yoe / 100 + doy
  era * 146097 + doe - 719468

/-- Parses the date part YYYY-MM-DD to unix seconds at midnight UTC. -/
def parseDatePart (s : String) : Option Int :=
  match s.splitOn "-" with
  | [y, m, d] =>
    match parseDigits y, parseDigits m, parseDigits d with
    | some yv, some mv, some dv =>
      if y.length == 4 && m.length == 2 && d.length == 2 &&
         1 ≤ mv && mv ≤ 12 && 1 ≤ dv && dv ≤ 31 then
        some (daysFromCivil (Int.ofNat yv) mv dv * 86400)
      else none
    | _, _, _ => none
  | _ => none

/-- Parses a time-of-day HH:MM or HH:MM:SS (a fractional second part is
discarded, as the Python parser accepts and this model ignores sub-second
precision) to seconds within the day. -/
def parseTimePart (s : String) : Option Nat :=
  match s.splitOn ":" with
  | [h, m] =>
    match parseDigits h, parseDigits m with
    | some hv, some mv =>
      if h.length == 2 && m.length == 2 && hv < 24 && mv < 60 then
        some (hv * 3600 + mv * 60)
      else none
    | _, _ => none
  | [h, m, sec] =>
    match parseDigits h, parseDigits m, parseDigits ((sec.splitOn ".").headD "") with
    | some hv, some mv, some sv =>
      if h.length == 2 && m.length == 2 && hv < 24 && mv < 60 && sv < 60 then
        some (hv * 3600 + mv * 60 + sv)
      else none
    | _, _, _ => none
  | _ => none

/-- Models datetime.fromisoformat on the forms the system meets: a date,
or a date and a time separated by T, with an optional +HH:MM or -HH:MM
offset (the route has already rewritten a trailing Z to +00:00). Exotic
ISO forms are out of scope; an unparsable string yields none, which the
route turns into silently skipping the filter. -/
def parseIso (s : String) : Option Int :=
  match s.splitOn "T" with
  | [d] => parseDatePart d
  | [d, t] =>
    match parseDatePart d with
    | none => none
    | some base =>
      match t.splitOn "+" with
      | [tc, oz] =>
        match parseTimePart tc, parseTimePart oz with
        | some sec, some off => some (base + Int.ofNat sec - Int.ofNat off)
        | _, _ => none
      | [tc] =>
        match tc.splitOn "-" with
        | [t2, oz] =>
          match parseTimePart t2, parseTimePart oz with
          | some sec, some off => some (base + Int.ofNat sec + Int.ofNat off)
          | _, _ => none
        | [t2] =>
          match parseTimePart t2 with
          | some sec => some (base + Int.ofNat sec)
          | none => none
        | _ => none
      | _ => none
  | _ => none

/-- Embeds the due_before filter (tasks.py lines 69-79): non-blank input
with a trailing Z rewritten, parsed as ISO; on parse failure the filter is
silently skipped; otherwise rows with due_date at or before the bound are
kept (a NULL due_date never matches a SQL comparison). -/
def dueBeforeFilter : Option String → List Task → List Task
  | none, l => l
  | some s, l =>
    if trimStr s == "" then l
    else
      match parseIso (s.replace "Z" "+00:00") with
      | some ts => l.filter (fun t =>
          match t.due_date with
          | some d => decide (d ≤ ts)
          | none => false)
      | none => l

/-- Embeds the due_after filter (tasks.py lines 81-91), symmetric to the
due_before filter. -/
def dueAfterFilter : Option String → List Task → List Task
  | none, l => l
  | some s, l =>
    if trimStr s == "" then l
    else
      match parseIso (s.replace "Z" "+00:00") with
      | some ts => l.filter (fun t =>
          match t.due_date with
          | some d => decide (ts ≤ d)
          | none => false)
      | none => l

/-! ## Sorting and pagination -/

/-- The sort allow-list of get_tasks (tasks.py line 94). -/
def validSortFields : List String :=
  ["created_at", "due_date", "priority", "title", "updated_at", "completed"]

/-- Three-way comparison of an optional column value, with SQL NULLS FIRST
semantics in ascending order (the SQLite default). -/
def cmpOpt {α : Type} (cmp : α → α → Ordering) : Option α → Option α → Ordering
  | none, none => Ordering.eq
  | none, some _ => Ordering.lt
  | some _, none => Ordering.gt
  | some a, some b => cmp a b

/-- Three-way comparison of two rows on one allow-listed sort column.
Booleans compare as the integers SQL stores them as. -/
def cmpField (field : String) (a b : Task) : Ordering :=
  if field == "created_at" then compare a.created_at b.created_at
  else if field == "due_date" then cmpOpt compare a.due_date b.due_date
  else if field == "priority" then cmpOpt compare a.priority b.priority
  else if field == "title" then compare a.title b.title
  else if field == "updated_at" then compare a.updated_at b.updated_at
  else if field == "completed" then
    compare (cond a.completed 1 0) (cond b.completed (1 : Nat) 0)
  else Ordering.eq

/-- Ordered insertion, the auxiliary step of the row sort below. -/
def insertBy (le : Task → Task → Bool) (x : Task) : List Task → List Task
  | [] => [x]
  | y :: ys => if le x y then x :: y :: ys else y :: insertBy le x ys

/-- The ORDER BY of the store, modelled as a (stable) insertion sort under
the given boolean ordering. -/
def sortBy (le : Task → Task → Bool) : List Task → List Task
  | [] => []
  | x :: xs => insertBy le x (sortBy le xs)

/-- Embeds the sort step of get_tasks (tasks.py lines 93-101): only an
allow-listed field is sorted on (otherwise the query gets no ORDER BY at
all and the storage order is kept); the order parameter selects ascending
exactly when it is truthy and lowercases to asc, otherwise descending. -/
def applySort (sort : Option String) (order : Option String) (l : List Task) : List Task :=
  match sort with
  | none => l
  | some s =>
    if validSortFields.contains s then
      if (match order with
          | some o => !(o == "") && lowerStr o == "asc"
          | none => false) then
        sortBy (fun a b => !(cmpField s a b == Ordering.gt)) l
      else sortBy (fun a b => !(cmpField s a b == Ordering.lt)) l
    else l

/-- Embeds the pagination step (tasks.py line 104), OFFSET then LIMIT.
The route guarantees a non-negative skip; limit carries no lower bound, and
a negative LIMIT means no limit in SQLite, the development store. -/
def paginate (skip limit : Int) (l : List Task) : List Task :=
  if limit < 0 then l.drop skip.toNat else (l.drop skip.toNat).take limit.toNat

/-! ## The task list query -/

/-- The validated query parameters of get_tasks, as they stand inside the
route body: skip and limit already range-checked, the string parameters
exactly as supplied, sort and order carrying their declared defaults when
the client omitted them. -/
structure QueryParams where
  skip : Int := 0
  limit : Int := 100
  status : Option String := none
  priority : Option String := none
  tag : Option String := none
  search : Option String := none
  due_before : Option String := none
  due_after : Option String := none
  sort : Option String := some "created_at"
  order : Option String := some "desc"
deriving DecidableEq, Repr

/-- Embeds the body of get_tasks (tasks.py lines 35-110): the base
ownership predicate on user_id, then each optional filter, then the sort
step, then pagination. -/
def get_tasks (db : List Task) (current_user_id : String) (p : QueryParams) : List Task :=
  let l := db.filter (fun t => t.user_id == current_user_id)
  let l := statusFilter p.status l
  let l := priorityFilter p.priority l
  let l := tagFilter p.tag l
  let l := searchFilter p.search l
  let l := dueBeforeFilter p.due_before l
  let l := dueAfterFilter p.due_after l
  let l := applySort p.sort p.order l
  paginate p.skip p.limit l

/-- The 422 produced by FastAPI when a declared Query constraint fails. -/
def validationError : HTTPError :=
  { status_code := 422, detail := "Unprocessable Entity" }

/-- Embeds the FastAPI parameter declaration skip = Query(0, ge=0)
(tasks.py line 21): an omitted parameter takes the default, a supplied
value below zero is rejected with a validation error. -/
def validateSkip : Option Int → Option Int
  | none => some 0
  | some v => if 0 ≤ v then some v else none

/-- Embeds the FastAPI parameter declaration limit = Query(100, le=100)
(tasks.py line 22): an omitted parameter takes the default, a supplied
value above 100 is rejected with a validation error (le is a validation
constraint, not a clamp). -/
def validateLimit : Option Int → Option Int
  | none => some 100
  | some v => if v ≤ 100 then some v else none

/-- The raw query string of a task-list request: none for an omitted
parameter. -/
structure RawQuery where
  skip : Option Int := none
  limit : Option Int := none
  status : Option String := none
  priority : Option String := none
  tag : Option String := none
  search : Option String := none
  due_before : Option String := none
  due_after : Option String := none
  sort : Option String := none
  order : Option String := none
deriving DecidableEq, Repr

/-- The GET /tasks endpoint as seen from outside for an authenticated
requester: FastAPI validates skip and limit against their declared
constraints (rejecting with 422 on violation) and fills in the declared
defaults, then the route body runs. -/
def handle_get_tasks (db : List Task) (current_user_id : String) (q : RawQuery) :
    Except HTTPError (List Task) :=
  match validateSkip q.skip, validateLimit q.limit with
  | some sk, some lim =>
    Except.ok (get_tasks db current_user_id
      { skip := sk, limit := lim, status := q.status, priority := q.priority,
        tag := q.tag, search := q.search, due_before := q.due_before,
        due_after := q.due_after, sort := some (q.sort.getD "created_at"),
        order := some (q.order.getD "desc") })
  | _, _ => Except.error validationError

/-! ## Single-task operations (src/backend/src/routes/tasks.py) -/

/-- The 404 raised by every single-task route on a missing or foreign
task. -/
def notFoundError : HTTPError :=
  { status_code := 404, detail := "Task not found or does not belong to authenticated user" }

/-- A 500 standing for an uncaught infrastructure exception (the
MultipleResultsFound path of scalar_one_or_none, unreachable while ids are
unique). -/
def internalError : HTTPError :=
  { status_code := 500, detail := "Internal Server Error" }

/-- The SQLAlchemy scalar_one_or_none call: none of the outer option marks
the MultipleResultsFound exception, some none marks no row, some (some t)
a unique row. -/
def scalarOneOrNone : List Task → Option (Option Task)
  | [] => some none
  | [t] => some (some t)
  | _ :: _ :: _ => none

/-- The shared lookup of every single-task route: select the row whose id
and user_id both match (tasks.py line 145 and its clones). -/
def find_task (db : List Task) (current_user_id : String) (task_id : Nat) :
    Option (Option Task) :=
  scalarOneOrNone (db.filter (fun t => t.id == task_id && t.user_id == current_user_id))

/-- Embeds get_task (tasks.py lines 135-155). -/
def get_task (db : List Task) (current_user_id : String) (task_id : Nat) :
    Except HTTPError Task :=
  match find_task db current_user_id task_id with
  | none => Except.error internalError
  | some none => Except.error notFoundError
  | some (some t) => Except.ok t

/-- Modelled from the spec: the TaskUpdate schema module is missing from the
sources; per the design notes every field is an optional patch whose absent
state is a distinguished unset sentinel (none here), and the nullable
columns distinguish set-to-null (some none) from unset. -/
structure TaskUpdate where
  title : Option String := none
  description : Option (Option String) := none
  completed : Option Bool := none
  priority : Option (Option String) := none
  tags : Option (Option String) := none
  due_date : Option (Option Int) := none
deriving DecidableEq, Repr

/-- The update loop of the PUT and PATCH routes (tasks.py lines 180-182):
only the fields present in the payload are assigned onto the row. -/
def applyUpdate (t : Task) (u : TaskUpdate) : Task :=
  { t with
    title := u.title.getD t.title
    description := u.description.getD t.description
    completed := u.completed.getD t.completed
    priority := u.priority.getD t.priority
    tags := u.tags.getD t.tags
    due_date := u.due_date.getD t.due_date }

/-- Embeds update_task (tasks.py lines 158-187): ownership-scoped lookup,
404 on no row, else the patched row is written back; the result is the
returned row and the database after commit. -/
def update_task (db : List Task) (current_user_id : String) (task_id : Nat)
    (task_update : TaskUpdate) : Except HTTPError (Task × List Task) :=
  match find_task db current_user_id task_id with
  | none => Except.error internalError
  | some none => Except.error notFoundError
  | some (some t) =>
    let t2 := applyUpdate t task_update
    Except.ok (t2, db.map (fun x =>
      if x.id == task_id && x.user_id == current_user_id then t2 else x))

/-- Embeds the PATCH route (tasks.py lines 190-219), whose body is
identical to the PUT route. Its source name carries the Python modifier
for partial updates; here it is named after its HTTP verb. -/
def patch_task (db : List Task) (current_user_id : String) (task_id : Nat)
    (task_update : TaskUpdate) : Except HTTPError (Task × List Task) :=
  match find_task db current_user_id task_id with
  | none => Except.error internalError
  | some none => Except.error notFoundError
  | some (some t) =>
    let t2 := applyUpdate t task_update
    Except.ok (t2, db.map (fun x =>
      if x.id == task_id && x.user_id == current_user_id then t2 else x))

/-- Embeds delete_task (tasks.py lines 222-245): ownership-scoped lookup,
404 on no row, else the row is removed; the result is the database after
commit. -/
def delete_task (db : List Task) (current_user_id : String) (task_id : Nat) :
    Except HTTPError (List Task) :=
  match find_task db current_user_id task_id with
  | none => Except.error internalError
  | some none => Except.error notFoundError
  | some (some _) =>
    Except.ok (db.filter (fun x =>
      !(x.id == task_id && x.user_id == current_user_id)))

/-- Embeds toggle_task_completion (tasks.py lines 248-274): ownership-scoped
lookup, 404 on no row, else the completed flag is flipped and written
back. -/
def toggle_task_completion (db : List Task) (current_user_id : String) (task_id : Nat) :
    Except HTTPError (Task × List Task) :=
  match find_task db current_user_id task_id with
  | none => Except.error internalError
  | some none => Except.error notFoundError
  | some (some t) =>
    let t2 := { t with completed := !t.completed }
    Except.ok (t2, db.map (fun x =>
      if x.id == task_id && x.user_id == current_user_id then t2 else x))

/-- Modelled from the spec: the TaskCreate schema module is missing from the
sources; per the external interface it carries title, optional description,
priority, tags and due_date, and (to express the override the create route
performs) an optional owner field a client may try to supply. -/
structure TaskCreate where
  title : String
  description : Option String := none
  priority : Option String := none
  tags : Option String := none
  due_date : Option Int := none
  user_id : Option String := none
deriving DecidableEq, Repr

/-- Embeds create_task (tasks.py lines 113-132): the row is built from the
payload with its user_id field excluded, and user_id is set to the
authenticated identity; the store assigns the new id and the timestamps.
The result is the returned row and the database after commit. -/
def create_task (db : List Task) (current_user_id : String) (task : TaskCreate)
    (new_id : Nat) (now : Int) : Task × List Task :=
  let db_task : Task :=
    { id := new_id, user_id := current_user_id, title := task.title,
      description := task.description, completed := false,
      priority := task.priority, tags := task.tags, due_date := task.due_date,
      created_at := now, updated_at := now }
  (db_task, db ++ [db_task])

/-! ## Concrete fixtures used by witnesses and counterexamples -/

/-- A task owned by alice, the oldest row of the sample store. -/
def taskOne : Task :=
  { id := 1, user_id := "alice", title := "buy milk", description := none,
    completed := false, priority := some "high", tags := none, due_date := none,
    created_at := 1, updated_at := 1 }

/-- A second task owned by alice, created after taskOne. -/
def taskTwo : Task :=
  { id := 2, user_id := "alice", title := "write report", description := none,
    completed := true, priority := some "low", tags := none, due_date := none,
    created_at := 2, updated_at := 2 }

/-- A task owned by bob. -/
def taskThree : Task :=
  { id := 3, user_id := "bob", title := "call home", description := none,
    completed := false, priority := none, tags := none, due_date := none,
    created_at := 3, updated_at := 3 }

/-- A sample store holding rows of two different users, in storage order. -/
def sampleDb : List Task := [taskOne, taskTwo, taskThree]

/-! ## Helper lemmas about the query pipeline -/

theorem insertBy_perm (le : Task → Task → Bool) (x : Task) (l : List Task) :
    (insertBy le x l).Perm (x :: l) := by
  induction l with
  | nil => exact List.Perm.refl _
  | cons y ys ih =>
    simp only [insertBy]
    split
    · exact List.Perm.refl _
    · exact (ih.cons y).trans (List.Perm.swap x y ys)

theorem sortBy_perm (le : Task → Task → Bool) (l : List Task) :
    (sortBy le l).Perm l := by
  induction l with
  | nil => exact List.Perm.refl _
  | cons x xs ih => exact (insertBy_perm le x (sortBy le xs)).trans (ih.cons x)

theorem applySort_perm (s o : Option String) (l : List Task) :
    (applySort s o l).Perm l := by
  cases s with
  | none => exact List.Perm.refl _
  | some v =>
    simp only [applySort]
    split
    · split
      · exact sortBy_perm _ _
      · exact sortBy_perm _ _
    · exact List.Perm.refl _

theorem statusFilter_subset (s : Option String) (l : List Task) (t : Task)
    (h : t ∈ statusFilter s l) : t ∈ l := by
  cases s with
  | none => exact h
  | some v =>
    simp only [statusFilter] at h
    split at h
    · exact h
    · split at h
      · exact List.mem_of_mem_filter h
      · split at h
        · exact List.mem_of_mem_filter h
        · exact h

theorem priorityFilter_subset (s : Option String) (l : List Task) (t : Task)
    (h : t ∈ priorityFilter s l) : t ∈ l := by
  cases s with
  | none => exact h
  | some v =>
    simp only [priorityFilter] at h
    split at h
    · exact h
    · exact List.mem_of_mem_filter h

theorem tagFilter_subset (s : Option String) (l : List Task) (t : Task)
    (h : t ∈ tagFilter s l) : t ∈ l := by
  cases s with
  | none => exact h
  | some v =>
    simp only [tagFilter] at h
    split at h
    · exact h
    · exact List.mem_of_mem_filter h

theorem searchFilter_subset (s : Option String) (l : List Task) (t : Task)
    (h : t ∈ searchFilter s l) : t ∈ l := by
  cases s with
  | none => exact h
  | some v =>
    simp only [searchFilter] at h
    split at h
    · exact h
    · exact List.mem_of_mem_filter h

theorem dueBeforeFilter_subset (s : Option String) (l : List Task) (t : Task)
    (h : t ∈ dueBeforeFilter s l) : t ∈ l := by
  cases s with
  | none => exact h
  | some v =>
    simp only [dueBeforeFilter] at h
    split at h
    · exact h
    · split at h
      · exact List.mem_of_mem_filter h
      · exact h

theorem dueAfterFilter_subset (s : Option String) (l : List Task) (t : Task)
    (h : t ∈ dueAfterFilter s l) : t ∈ l := by
  cases s with
  | none => exact h
  | some v =>
    simp only [dueAfterFilter] at h
    split at h
    · exact h
    · split at h
      · exact List.mem_of_mem_filter h
      · exact h

theorem paginate_subset (skip limit : Int) (l : List Task) (t : Task)
    (h : t ∈ paginate skip limit l) : t ∈ l := by
  simp only [paginate] at h
  split at h
  · exact List.drop_subset _ _ h
  · exact List.drop_subset _ _ (List.take_subset _ _ h)

/-- Every row the list query returns is owned by the requester. -/
theorem get_tasks_owner (db : List Task) (uid : String) (p : QueryParams) (t : Task)
    (h : t ∈ get_tasks db uid p) : t.user_id = uid := by
  simp only [get_tasks] at h
  have h1 := paginate_subset _ _ _ _ h
  have h2 := (applySort_perm _ _ _).subset h1
  have h3 := dueAfterFilter_subset _ _ _ h2
  have h4 := dueBeforeFilter_subset _ _ _ h3
  have h5 := searchFilter_subset _ _ _ h4
  have h6 := tagFilter_subset _ _ _ h5
  have h7 := priorityFilter_subset _ _ _ h6
  have h8 := statusFilter_subset _ _ _ h7
  have h9 := List.mem_filter.mp h8
  simpa using h9.2

theorem scalarOneOrNone_mem (l : List Task) (t : Task)
    (h : scalarOneOrNone l = some (some t)) : t ∈ l := by
  match l with
  | [] => simp [scalarOneOrNone] at h
  | [a] =>
    simp only [scalarOneOrNone, Option.some.injEq] at h
    rw [← h]
    exact List.mem_singleton_self a
  | a :: b :: rest => simp [scalarOneOrNone] at h

theorem mem_key_filter (db : List Task) (uid : String) (tid : Nat) (t : Task)
    (h : t ∈ db.filter (fun x => x.id == tid && x.user_id == uid)) :
    t ∈ db ∧ t.id = tid ∧ t.user_id = uid := by
  have h2 := List.mem_filter.mp h
  refine ⟨h2.1, ?_⟩
  simpa using h2.2

/-- With unique row ids, a task owned by someone else makes the
ownership-scoped key lookup come up empty. -/
theorem key_filter_eq_nil (db : List Task) (uid : String) (tid : Nat) (t : Task)
    (hnd : (db.map Task.id).Nodup) (ht : t ∈ db) (hid : t.id = tid) (hu : t.user_id ≠ uid) :
    db.filter (fun x => x.id == tid && x.user_id == uid) = [] := by
  rw [List.filter_eq_nil_iff]
  intro x hx hpx
  have hx2 : x.id = tid ∧ x.user_id = uid := by simpa using hpx
  have hxt : x = t := List.inj_on_of_nodup_map hnd hx ht (by rw [hx2.1, hid])
  rw [hxt] at hx2
  exact hu hx2.2

/-- The PATCH route body is the same code as the PUT route body. -/
theorem patch_task_eq_update (db : List Task) (uid : String) (tid : Nat) (u : TaskUpdate) :
    patch_task db uid tid u = update_task db uid tid u := rfl

/-- Applying a partial update never changes the owning user. -/
theorem applyUpdate_user_id (t : Task) (u : TaskUpdate) :
    (applyUpdate t u).user_id = t.user_id := rfl

theorem get_task_ok_owner (db : List Task) (uid : String) (tid : Nat) (t : Task)
    (h : get_task db uid tid = Except.ok t) : t.user_id = uid := by
  unfold get_task at h
  cases hf : find_task db uid tid with
  | none => rw [hf] at h; exact absurd h (by simp)
  | some o =>
    cases o with
    | none => rw [hf] at h; exact absurd h (by simp)
    | some t0 =>
      rw [hf] at h
      have ht0 : t0 = t := by simpa using h
      unfold find_task at hf
      have hm := scalarOneOrNone_mem _ _ hf
      have := mem_key_filter _ _ _ _ hm
      rw [← ht0]
      exact this.2.2

theorem update_task_ok_props (db : List Task) (uid : String) (tid : Nat) (u : TaskUpdate)
    (t2 : Task) (db2 : List Task) (h : update_task db uid tid u = Except.ok (t2, db2)) :
    t2.user_id = uid ∧ ∀ t ∈ db, t.user_id ≠ uid → t ∈ db2 := by
  unfold update_task at h
  cases hf : find_task db uid tid with
  | none => rw [hf] at h; exact absurd h (by simp)
  | some o =>
    cases o with
    | none => rw [hf] at h; exact absurd h (by simp)
    | some t0 =>
      rw [hf] at h
      have hpair : (applyUpdate t0 u,
          db.map (fun x => if x.id == tid && x.user_id == uid then applyUpdate t0 u else x)) =
          (t2, db2) := by simpa using h
      injection hpair with hfst hsnd
      unfold find_task at hf
      have hm := mem_key_filter _ _ _ _ (scalarOneOrNone_mem _ _ hf)
      constructor
      · rw [← hfst, applyUpdate_user_id]
        exact hm.2.2
      · intro t ht htu
        rw [← hsnd]
        refine List.mem_map.mpr ⟨t, ht, ?_⟩
        have hcond : (t.id == tid && t.user_id == uid) = false := by
          simp [htu]
        rw [hcond]
        simp

theorem toggle_ok_props (db : List Task) (uid : String) (tid : Nat)
    (t2 : Task) (db2 : List Task) (h : toggle_task_completion db uid tid = Except.ok (t2, db2)) :
    t2.user_id = uid ∧ ∀ t ∈ db, t.user_id ≠ uid → t ∈ db2 := by
  unfold toggle_task_completion at h
  cases hf : find_task db uid tid with
  | none => rw [hf] at h; exact absurd h (by simp)
  | some o =>
    cases o with
    | none => rw [hf] at h; exact absurd h (by simp)
    | some t0 =>
      rw [hf] at h
      have hpair : ({ t0 with completed := !t0.completed },
          db.map (fun x => if x.id == tid && x.user_id == uid then
            { t0 with completed := !t0.completed } else x)) = (t2, db2) := by simpa using h
      injection hpair with hfst hsnd
      unfold find_task at hf
      have hm := mem_key_filter _ _ _ _ (scalarOneOrNone_mem _ _ hf)
      constructor
      · rw [← hfst]
        exact hm.2.2
      · intro t ht htu
        rw [← hsnd]
        refine List.mem_map.mpr ⟨t, ht, ?_⟩
        have hcond : (t.id == tid && t.user_id == uid) = false := by
          simp [htu]
        rw [hcond]
        simp

theorem delete_ok_props (db : List Task) (uid : String) (tid : Nat)
    (db2 : List Task) (h : delete_task db uid tid = Except.ok db2) :
    ∀ t ∈ db, t.user_id ≠ uid → t ∈ db2 := by
  unfold delete_task at h
  cases hf : find_task db uid tid with
  | none => rw [hf] at h; exact absurd h (by simp)
  | some o =>
    cases o with
    | none => rw [hf] at h; exact absurd h (by simp)
    | some t0 =>
      rw [hf] at h
      have hdb2 : db.filter (fun x => !(x.id == tid && x.user_id == uid)) = db2 := by
        simpa using h
      intro t ht htu
      rw [← hdb2]
      refine List.mem_filter.mpr ⟨ht, ?_⟩
      simp [htu]

theorem handle_get_tasks_ok (db : List Task) (uid : String) (q : RawQuery) (l : List Task)
    (h : handle_get_tasks db uid q = Except.ok l) : ∀ t ∈ l, t.user_id = uid := by
  unfold handle_get_tasks at h
  cases h1 : validateSkip q.skip with
  | none => rw [h1] at h; exact absurd h (by simp)
  | some sk =>
    cases h2 : validateLimit q.limit with
    | none => rw [h1, h2] at h; exact absurd h (by simp)
    | some lim =>
      rw [h1, h2] at h
      have hl : get_tasks db uid
          { skip := sk, limit := lim, status := q.status, priority := q.priority,
            tag := q.tag, search := q.search, due_before := q.due_before,
            due_after := q.due_after, sort := some (q.sort.getD "created_at"),
            order := some (q.order.getD "desc") } = l := by simpa using h
      intro t ht
      rw [← hl] at ht
      exact get_tasks_owner _ _ _ _ ht

/-- With unique row ids, every single-task operation answers the 404
not-found error when the addressed task exists but is owned by another
user. -/
theorem foreign_task_not_found (db : List Task) (uid : String) (tid : Nat) (t : Task)
    (hnd : (db.map Task.id).Nodup) (ht : t ∈ db) (hid : t.id = tid) (hu : t.user_id ≠ uid) :
    get_task db uid tid = Except.error notFoundError ∧
    (∀ u, update_task db uid tid u = Except.error notFoundError) ∧
    (∀ u, patch_task db uid tid u = Except.error notFoundError) ∧
    delete_task db uid tid = Except.error notFoundError ∧
    toggle_task_completion db uid tid = Except.error notFoundError := by
  have hnil := key_filter_eq_nil db uid tid t hnd ht hid hu
  have hf : find_task db uid tid = some none := by
    unfold find_task
    rw [hnil]
    rfl
  refine ⟨?_, fun u => ?_, fun u => ?_, ?_, ?_⟩
  · unfold get_task; rw [hf]
  · unfold update_task; rw [hf]
  · rw [patch_task_eq_update]; unfold update_task; rw [hf]
  · unfold delete_task; rw [hf]
  · unfold toggle_task_completion; rw [hf]

/-- The central ownership invariant of the task routes, for one database
state and one authenticated requester: the list endpoint only returns rows
of the requester; read-one only returns rows of the requester; the write
operations only produce rows of the requester and leave every row of other
users untouched; and each single-task operation collapses a foreign task to
the not-found outcome. -/
def ownershipSafe (db : List Task) (uid : String) : Prop :=
  (∀ q l, handle_get_tasks db uid q = Except.ok l → ∀ t ∈ l, t.user_id = uid) ∧
  (∀ tid t, get_task db uid tid = Except.ok t → t.user_id = uid) ∧
  (∀ tid u t2 db2, update_task db uid tid u = Except.ok (t2, db2) →
    t2.user_id = uid ∧ ∀ t ∈ db, t.user_id ≠ uid → t ∈ db2) ∧
  (∀ tid u t2 db2, patch_task db uid tid u = Except.ok (t2, db2) →
    t2.user_id = uid ∧ ∀ t ∈ db, t.user_id ≠ uid → t ∈ db2) ∧
  (∀ tid t2 db2, toggle_task_completion db uid tid = Except.ok (t2, db2) →
    t2.user_id = uid ∧ ∀ t ∈ db, t.user_id ≠ uid → t ∈ db2) ∧
  (∀ tid db2, delete_task db uid tid = Except.ok db2 →
    ∀ t ∈ db, t.user_id ≠ uid → t ∈ db2) ∧
  (∀ tid t, t ∈ db → t.id = tid → t.user_id ≠ uid →
    get_task db uid tid = Except.error notFoundError ∧
    (∀ u, update_task db uid tid u = Except.error notFoundError) ∧
    (∀ u, patch_task db uid tid u = Except.error notFoundError) ∧
    delete_task db uid tid = Except.error notFoundError ∧
    toggle_task_completion db uid tid = Except.error notFoundError)

/-- C1: for every authenticated requester and every database state with
unique task ids, the task list query under any combination of filter, sort
and pagination parameters, and the read-one, update, patch, delete and
toggle-complete operations, only ever return or modify tasks whose user_id
is the requester; a task owned by a different user always yields the 404
not-found outcome, never the task data. -/
theorem c1_ownership_invariant (db : List Task) (uid : String)
    (hnd : (db.map Task.id).Nodup) : ownershipSafe db uid := by
  refine ⟨?_, ?_, ?_, ?_, ?_, ?_, ?_⟩
  · exact fun q l h => handle_get_tasks_ok db uid q l h
  · exact fun tid t h => get_task_ok_owner db uid tid t h
  · exact fun tid u t2 db2 h => update_task_ok_props db uid tid u t2 db2 h
  · intro tid u t2 db2 h
    rw [patch_task_eq_update] at h
    exact update_task_ok_props db uid tid u t2 db2 h
  · exact fun tid t2 db2 h => toggle_ok_props db uid tid t2 db2 h
  · exact fun tid db2 h => delete_ok_props db uid tid db2 h
  · exact fun tid t ht hid hu => foreign_task_not_found db uid tid t hnd ht hid hu

/-- C1 witness: the sample store has unique ids and the invariant holds for
requester bob, who owns only the third row. -/
theorem c1_ownership_invariant_witness :
    (sampleDb.map Task.id).Nodup ∧ ownershipSafe sampleDb "bob" :=
  ⟨by decide, c1_ownership_invariant sampleDb "bob" (by decide)⟩

/-- C2 counterexample: a task-list request with limit 1000 is rejected with
the 422 validation error, against the claim that such a request succeeds
with the limit silently capped to 100 and is never rejected. -/
theorem c2_limit_not_capped :
    handle_get_tasks sampleDb "alice" { limit := some 1000 } =
      Except.error validationError := by decide

/-- C2 as amended: every task-list request whose limit parameter exceeds
100 is rejected with the 422 validation error (the declared le=100 bound is
a validation constraint, not a clamp); the limit is never silently capped. -/
theorem c2_limit_rejected (db : List Task) (uid : String) (q : RawQuery) (v : Int)
    (hv : q.limit = some v) (h : 100 < v) :
    handle_get_tasks db uid q = Except.error validationError := by
  have hlim : validateLimit q.limit = none := by
    rw [hv]
    simp only [validateLimit, ite_eq_right_iff]
    intro hle
    exact absurd h (by omega)
  unfold handle_get_tasks
  rw [hlim]
  cases validateSkip q.skip <;> rfl

/-- C2 witness: the amended statement at limit 1000 on the sample store. -/
theorem c2_limit_rejected_witness :
    ({ limit := some 1000 : RawQuery }.limit = some 1000) ∧ (100 : Int) < 1000 ∧
    handle_get_tasks sampleDb "alice" { limit := some 1000 } =
      Except.error validationError :=
  ⟨rfl, by decide, c2_limit_rejected sampleDb "alice" { limit := some 1000 } 1000 rfl (by decide)⟩

/-- Whether consecutive rows are in weakly descending order of the given
key, the ordering the default created_at desc sort would produce. -/
def sortedDescBy (key : Task → Int) : List Task → Bool
  | [] => true
  | [_] => true
  | a :: b :: rest => decide (key b ≤ key a) && sortedDescBy key (b :: rest)

/-- C3 counterexample: with sort unknown_field the query returns the rows
of the requester in storage order (created_at ascending here), not in the
claimed default created_at-descending order. -/
theorem c3_no_default_sort :
    get_tasks sampleDb "alice" { sort := some "unknown_field" } = [taskOne, taskTwo] ∧
    sortedDescBy (fun t => t.created_at)
      (get_tasks sampleDb "alice" { sort := some "unknown_field" }) = false := by
  refine ⟨by decide, by decide⟩

/-- C3 as amended: a task-list request whose sort parameter is outside the
allow-list is handled without error, but the sort value is simply ignored
and no ordering is applied at all: the result equals that of the same query
with no sort step (storage order), and the default created_at-descending
ordering arises only from the defaulted sort parameter, not from invalid
values. -/
theorem c3_invalid_sort_ignored (db : List Task) (uid : String) (q : QueryParams) (s : String)
    (hs : q.sort = some s) (hvalid : validSortFields.contains s = false) :
    get_tasks db uid q = get_tasks db uid { q with sort := none } := by
  simp only [get_tasks, hs, applySort, hvalid]
  rfl

/-- C3 witness: the amended statement at sort unknown_field on the sample
store. -/
theorem c3_invalid_sort_ignored_witness :
    ({ sort := some "unknown_field" : QueryParams }.sort = some "unknown_field") ∧
    (validSortFields.contains "unknown_field" = false) ∧
    get_tasks sampleDb "alice" { sort := some "unknown_field" } =
      get_tasks sampleDb "alice"
        { ({ sort := some "unknown_field" } : QueryParams) with sort := none } :=
  ⟨rfl, by decide,
    c3_invalid_sort_ignored sampleDb "alice" { sort := some "unknown_field" }
      "unknown_field" rfl (by decide)⟩

/-- C4 counterexample: a 73-byte password is hashed without any validation
error, producing the same digest as the truncated 72-byte password, i.e.
the hash silently truncates and hashes a different value than the one
supplied. -/
theorem c4_hash_truncates_silently :
    (List.replicate 73 97 : List Nat).length > 72 ∧
    List.replicate 73 97 ≠ List.replicate 72 97 ∧
    get_password_hash 0 (List.replicate 73 97) =
      get_password_hash 0 (List.replicate 72 97) := by
  refine ⟨by decide, by decide, by decide⟩

/-- C4 as amended: hashing a password whose byte length exceeds 72 never
fails with a validation error; the password is silently truncated to its
first 72 bytes and the truncated value is hashed. -/
theorem c4_hash_truncation (salt : Nat) (p : List Nat) (h : p.length > 72) :
    get_password_hash salt p = bcryptHash salt (p.take 72) := by
  simp [get_password_hash, h]

/-- C4 witness: the amended statement at a concrete 73-byte password. -/
theorem c4_hash_truncation_witness :
    (List.replicate 73 97 : List Nat).length > 72 ∧
    get_password_hash 5 (List.replicate 73 97) =
      bcryptHash 5 ((List.replicate 73 97).take 72) :=
  ⟨by decide, c4_hash_truncation 5 (List.replicate 73 97) (by decide)⟩

/-- C6 counterexample: verifying a 73-byte password against the digest
produced by hashing that same password returns true, against the claim that
verification returns false for every password above 72 bytes. -/
theorem c6_verify_long_password_true :
    (List.replicate 73 97 : List Nat).length > 72 ∧
    verify_password (List.replicate 73 97)
      (get_password_hash 0 (List.replicate 73 97)) = true := by
  refine ⟨by decide, by decide⟩

/-- C6 as amended: for a password whose byte length exceeds 72, verification
never raises; it silently truncates the password to its first 72 bytes and
checks the truncated value against the digest, so it returns true exactly
when the truncation matches and false otherwise. -/
theorem c6_verify_truncation (p : List Nat) (d : BcryptDigest) (h : p.length > 72) :
    verify_password p d = bcryptVerify (p.take 72) d := by
  simp [verify_password, h]

/-- C6 witness: the amended statement at a concrete 73-byte password. -/
theorem c6_verify_truncation_witness :
    (List.replicate 73 97 : List Nat).length > 72 ∧
    verify_password (List.replicate 73 97) (get_password_hash 0 (List.replicate 73 97)) =
      bcryptVerify ((List.replicate 73 97).take 72)
        (get_password_hash 0 (List.replicate 73 97)) :=
  ⟨by decide, c6_verify_truncation (List.replicate 73 97)
    (get_password_hash 0 (List.replicate 73 97)) (by decide)⟩

/-- C7: for every password of at most 72 bytes, verifying it against the
digest produced by hashing it returns true (hash and verify round-trip). -/
theorem c7_hash_verify_roundtrip (salt : Nat) (p : List Nat) (h : p.length ≤ 72) :
    verify_password p (get_password_hash salt p) = true := by
  have h2 : ¬ p.length > 72 := by omega
  simp [verify_password, get_password_hash, bcryptVerify, bcryptHash, h2]

/-- C7 witness: the round-trip at a concrete two-byte password. -/
theorem c7_hash_verify_roundtrip_witness :
    ([104, 105] : List Nat).length ≤ 72 ∧
    verify_password [104, 105] (get_password_hash 3 [104, 105]) = true :=
  ⟨by decide, c7_hash_verify_roundtrip 3 [104, 105] (by decide)⟩

/-- C5: evaluation of the code at the failing input. A token issued with a
zero time-to-live at time 1000 receives the 15-minute fallback expiry 1900,
because the source tests the supplied timedelta for truthiness and the zero
timedelta is falsy; verification 60 seconds after issuance therefore still
returns the issuing identity, against the claim (and the spec) that a
ttl-zero token never verifies to a valid identity. -/
theorem c5_zero_ttl_token_accepted :
    (create_access_token (some "alice") (some 0) 1000).payload.exp = 1900 ∧
    verify_token (create_access_token (some "alice") (some 0) 1000) 1060 =
      some { user_id := "alice" } := by
  refine ⟨by decide, by decide⟩

/-- C10: a token whose signature verifies under the process secret and
which is not expired, but whose payload carries no sub claim, fails
verification with no identity, and the auth guard turns it into the 401
credentials error rather than raising or yielding a partial identity. -/
theorem c10_missing_sub_rejected (tok : JWT) (now : Int)
    (hsig : tok.sig = hmacSign SECRET_KEY tok.payload)
    (hexp : ¬ tok.payload.exp < now)
    (hsub : tok.payload.sub = none) :
    verify_token tok now = none ∧
    get_current_user_id tok now = Except.error credentialsError := by
  have hdec : jwt_decode tok SECRET_KEY now = some tok.payload := by
    simp [jwt_decode, hsig, hexp]
  constructor
  · simp [verify_token, hdec, hsub]
  · simp [get_current_user_id, verify_token, hdec, hsub]

/-- C10 witness: a concrete well-signed unexpired token without a sub
claim, checked at time 0. -/
theorem c10_missing_sub_rejected_witness :
    ((jwt_encode { sub := none, exp := 99999 } SECRET_KEY).sig =
      hmacSign SECRET_KEY (jwt_encode { sub := none, exp := 99999 } SECRET_KEY).payload) ∧
    (¬ (jwt_encode { sub := none, exp := 99999 } SECRET_KEY).payload.exp < 0) ∧
    ((jwt_encode { sub := none, exp := 99999 } SECRET_KEY).payload.sub = none) ∧
    (verify_token (jwt_encode { sub := none, exp := 99999 } SECRET_KEY) 0 = none ∧
     get_current_user_id (jwt_encode { sub := none, exp := 99999 } SECRET_KEY) 0 =
       Except.error credentialsError) :=
  ⟨rfl, by decide, rfl,
    c10_missing_sub_rejected (jwt_encode { sub := none, exp := 99999 } SECRET_KEY) 0
      rfl (by decide) rfl⟩

/-- C9: every created task is owned by the authenticated requester,
whatever owner field the payload carried (the route excludes the payload
user_id and writes the requester identity), and the new store is the old
one extended by exactly that row. -/
theorem c9_create_assigns_requester (db : List Task) (current_user_id : String)
    (payload : TaskCreate) (new_id : Nat) (now : Int) :
    (create_task db current_user_id payload new_id now).1.user_id = current_user_id ∧
    (create_task db current_user_id payload new_id now).2 =
      db ++ [(create_task db current_user_id payload new_id now).1] :=
  ⟨rfl, rfl⟩

theorem priorityFilter_length_le (pp : Option String) (l : List Task) :
    (priorityFilter pp l).length ≤ l.length := by
  cases pp with
  | none => exact Nat.le_refl _
  | some v =>
    simp only [priorityFilter]
    split
    · exact Nat.le_refl _
    · exact List.length_filter_le _ _

/-- A list query carrying only a priority filter (all other parameters at
their defaults) reduces, for a store of at most the default page size, to
the default created_at-descending sort of the priority-filtered rows of the
requester. -/
theorem get_tasks_priority_only (db : List Task) (uid : String) (pp : Option String)
    (hlen : db.length ≤ 100) :
    get_tasks db uid { priority := pp } =
      sortBy (fun a b => !(cmpField "created_at" a b == Ordering.lt))
        (priorityFilter pp (db.filter (fun t => t.user_id == uid))) := by
  have hsort : ∀ l : List Task, applySort (some "created_at") (some "desc") l =
      sortBy (fun a b => !(cmpField "created_at" a b == Ordering.lt)) l := fun l => rfl
  have hpag : ∀ l : List Task, paginate 0 100 l = l.take 100 := fun l => rfl
  simp only [get_tasks, statusFilter, tagFilter, searchFilter, dueBeforeFilter,
    dueAfterFilter, hsort, hpag]
  apply List.take_of_length_le
  calc (sortBy (fun a b => !(cmpField "created_at" a b == Ordering.lt))
          (priorityFilter pp (db.filter (fun t => t.user_id == uid)))).length
      = (priorityFilter pp (db.filter (fun t => t.user_id == uid))).length :=
        (sortBy_perm _ _).length_eq
    _ ≤ (db.filter (fun t => t.user_id == uid)).length := priorityFilter_length_le _ _
    _ ≤ db.length := List.length_filter_le _ _
    _ ≤ 100 := hlen

/-- The stored priority of a row matches the filter value up to ASCII
letter case. -/
def matchesPriorityCI (t : Task) (pr : String) : Prop :=
  ∃ s, t.priority = some s ∧ lowerStr s = lowerStr pr

/-- The list query with only a priority filter returns exactly the rows of
the requester whose stored priority matches the filter case-insensitively. -/
def priorityQueryExact (db : List Task) (uid pr : String) : Prop :=
  ∀ t, t ∈ get_tasks db uid { priority := some pr } ↔
    (t ∈ db ∧ t.user_id = uid ∧ matchesPriorityCI t pr)

theorem lowerStr_of_closed (s : String)
    (h : s = "high" ∨ s = "medium" ∨ s = "low") : lowerStr s = s := by
  rcases h with h | h | h <;> rw [h] <;> rfl

theorem priorityOk_cases (t : Task) (s : String) (hok : priorityOk t = true)
    (hs : t.priority = some s) : s = "high" ∨ s = "medium" ∨ s = "low" := by
  unfold priorityOk at hok
  rw [hs] at hok
  simpa [or_assoc] using hok

/-- C8: under the stored-priority invariant of the data model, for every
non-blank priority filter value the task-list query returns exactly the
rows of the requester whose stored priority equals the filter value up to
letter case (whatever the letter case of either side), and an absent or
blank priority parameter applies no priority filter at all. -/
theorem c8_priority_filter (db : List Task) (uid pr : String)
    (hblank : ¬ trimStr pr = "")
    (hok : ∀ t ∈ db, priorityOk t = true)
    (hlen : db.length ≤ 100) :
    priorityQueryExact db uid pr ∧
    (∀ b, trimStr b = "" →
      get_tasks db uid { priority := some b } = get_tasks db uid { priority := none }) := by
  have hbf : (trimStr pr == "") = false := by simpa using hblank
  constructor
  · intro t
    rw [get_tasks_priority_only db uid (some pr) hlen, (sortBy_perm _ _).mem_iff]
    constructor
    · intro hmem
      have hmem2 : t ∈ (db.filter (fun x => x.user_id == uid)).filter
          (fun x => x.priority == some (lowerStr pr)) := by
        simpa [priorityFilter, hbf] using hmem
      have h1 := List.mem_filter.mp hmem2
      have h2 := List.mem_filter.mp h1.1
      have huser : t.user_id = uid := by simpa using h2.2
      have hprio : t.priority = some (lowerStr pr) := by simpa using h1.2
      refine ⟨h2.1, huser, lowerStr pr, hprio, ?_⟩
      exact lowerStr_of_closed _ (priorityOk_cases t (lowerStr pr) (hok t h2.1) hprio)
    · rintro ⟨ht, hu, s, hs, heq⟩
      have hfix : lowerStr s = s :=
        lowerStr_of_closed s (priorityOk_cases t s (hok t ht) hs)
      have hsp : t.priority = some (lowerStr pr) := by rw [hs, ← heq, hfix]
      have hmem2 : t ∈ (db.filter (fun x => x.user_id == uid)).filter
          (fun x => x.priority == some (lowerStr pr)) :=
        List.mem_filter.mpr ⟨List.mem_filter.mpr ⟨ht, by simp [hu]⟩, by simp [hsp]⟩
      simpa [priorityFilter, hbf] using hmem2
  · intro b hb
    simp [get_tasks, priorityFilter, hb]

/-- C8 witness: the sample store satisfies the stored-priority invariant,
and the statement holds for requester alice and the upper-case filter
value HIGH. -/
theorem c8_priority_filter_witness :
    (¬ trimStr "HIGH" = "") ∧ (∀ t ∈ sampleDb, priorityOk t = true) ∧
    sampleDb.length ≤ 100 ∧
    (priorityQueryExact sampleDb "alice" "HIGH" ∧
     ∀ b, trimStr b = "" →
       get_tasks sampleDb "alice" { priority := some b } =
         get_tasks sampleDb "alice" { priority := none }) :=
  ⟨by decide, by decide, by decide,
    c8_priority_filter sampleDb "alice" "HIGH" (by decide) (by decide) (by decide)⟩

end TodoApp
